import Mathlib

/-!
# Verification of the calculator's buffer / history / mode state machine

Shallow embedding of the TypeScript calculator application:

* `types.ts` (`CalcMode`, `CalculationRecord`, `AiResponse`) becomes the
  corresponding Lean structures.
* The `App` component's state hooks become the fields of `AppState`; each
  handler (`handleClear`, `handleBackspace`, `addToExpression`, `calculate`,
  `handleAiSolve`, the mode-tab click, the history-item click, `onKeyPress`)
  becomes a pure state-transition function.
* External collaborators are parameters: the math evaluator
  (`math.evaluate` composed with `String(...)`) is an abstract
  `String → Option String` where `none` models a raised evaluation error;
  the Gemini network round-trip and `JSON.parse` are parameters of
  `solveMathProblem`.
* Effectful fresh values (`crypto.randomUUID()`, `Date.now()`) are passed
  in as explicit arguments.
-/

/-- `CalcMode` from `types.ts`: `'standard' | 'scientific' | 'ai'`. -/
inductive CalcMode where
  | standard
  | scientific
  | ai
deriving DecidableEq, Repr

/-- `CalculationRecord` from `types.ts`. Optional TS fields (`isAi?`,
`explanation?`) become `Option` fields, `none` meaning absent. -/
structure CalculationRecord where
  id : String
  expression : String
  result : String
  timestamp : Nat
  isAi : Option Bool := none
  explanation : Option String := none
deriving DecidableEq, Repr

/-- `AiResponse` from `types.ts`. -/
structure AiResponse where
  answer : String
  explanation : String
  steps : List String
deriving DecidableEq, Repr

/-- The six `useState` hooks of the `App` component, as one state record. -/
structure AppState where
  mode : CalcMode
  expression : String
  result : String
  history : List CalculationRecord
  isAiLoading : Bool
  aiExplain : Option AiResponse
deriving DecidableEq, Repr

/-- JavaScript `String.prototype.trim()`: strip leading and trailing
whitespace. -/
def jsTrim (s : String) : String :=
  String.mk
    (((s.data.dropWhile Char.isWhitespace).reverse.dropWhile
        Char.isWhitespace).reverse)

/-- JavaScript `<` on strings: lexicographic comparison of the character
sequences. -/
def jsLtChars : List Char → List Char → Bool
  | [], [] => false
  | [], _ :: _ => true
  | _ :: _, [] => false
  | a :: as, b :: bs =>
    if a < b then true else if b < a then false else jsLtChars as bs

/-- JavaScript `a < b` on strings. -/
def jsStrLt (a b : String) : Bool := jsLtChars a.data b.data

/-- JavaScript `a <= b` on strings (`!(b < a)`). -/
def jsStrLe (a b : String) : Bool := !(jsStrLt b a)

/-- JavaScript `x || d` for a string-valued field that may be absent
(`undefined` → `none`): absent or empty string (both falsy) yield the
default `d`. -/
def jsOrStr (x : Option String) (d : String) : String :=
  match x with
  | none => d
  | some s => if s = "" then d else s

/-- The typed view of the JSON object obtained from `JSON.parse` in
`solveMathProblem`: each schema field may be absent. -/
structure ParsedJson where
  answer : Option String
  explanation : Option String
  steps : Option (List String)
deriving DecidableEq, Repr

/-- The hard-coded fallback record returned by `solveMathProblem`'s
`catch` branch in `services/geminiService.ts`. -/
def fallbackResponse : AiResponse :=
  { answer := "Error"
  , explanation := "Failed to connect to AI assistant."
  , steps := ["Please check your internet connection or API key."] }

/-- `solveMathProblem` from `services/geminiService.ts`.

The network round-trip is the parameter `net`: `Except.error ()` models the
awaited `generateContent` call raising (transport/service error), and
`Except.ok text` models a response whose `.text` field is `text`
(`none` = `undefined`). `JSON.parse` is the parameter `parse`, with `none`
modelling a raised `SyntaxError` on malformed input. The source computes
`JSON.parse(response.text || '{}')` and then applies `||`-defaults to the
three fields; any raise inside the `try` lands in the `catch`, which
returns `fallbackResponse`. -/
def solveMathProblem (parse : String → Option ParsedJson)
    (net : Except Unit (Option String)) : AiResponse :=
  match net with
  | .error _ => fallbackResponse
  | .ok text =>
    match parse (jsOrStr text "\x7b\x7d") with
    | none => fallbackResponse
    | some r =>
      { answer := jsOrStr r.answer "Error: No answer provided"
      , explanation := jsOrStr r.explanation "No explanation available."
      , steps := r.steps.getD [] }

/-- `handleClear` from the `App` component: clears expression, result and
the pending AI response; the other three state fields are untouched. -/
def handleClear (s : AppState) : AppState :=
  { s with expression := "", result := "", aiExplain := none }

/-- JavaScript `str.slice(0, -1)`: drop the final character; the empty
string maps to itself. -/
def jsSliceDropLast (s : String) : String :=
  String.mk s.data.dropLast

/-- `handleBackspace`: `setExpression(prev => prev.slice(0, -1))`. -/
def handleBackspace (s : AppState) : AppState :=
  { s with expression := jsSliceDropLast s.expression }

/-- `addToExpression(val)`: `setExpression(prev => prev + val)`. -/
def addToExpression (val : String) (s : AppState) : AppState :=
  { s with expression := s.expression ++ val }

/-- `calculate` from the `App` component. `eval` abstracts
`math.evaluate` composed with `String(...)` (`none` = the evaluator
throws); `freshId` and `now` stand for `crypto.randomUUID()` and
`Date.now()`. Empty buffer returns early; success prepends a record and
truncates the history with `.slice(0, 50)`; a throw is caught and sets
the result to `"Error"`. -/
def calculate (evalFn : String → Option String) (freshId : String)
    (now : Nat) (s : AppState) : AppState :=
  if s.expression = "" then s
  else
    match evalFn s.expression with
    | some resStr =>
      let newRecord : CalculationRecord :=
        { id := freshId
        , expression := s.expression
        , result := resStr
        , timestamp := now }
      { s with result := resStr
             , history := (newRecord :: s.history).take 50 }
    | none => { s with result := "Error" }

/-- `handleAiSolve` from the `App` component. The awaited
`solveMathProblem(expression)` call is abstracted as `outcome`:
`Except.ok aiRes` is the returned value, `Except.error ()` models the
awaited call raising (which the `catch` branch turns into the result
`"AI Error"`). The `finally` branch clears the loading flag on every
path that passed the blank-buffer guard. -/
def handleAiSolve (outcome : Except Unit AiResponse) (freshId : String)
    (now : Nat) (s : AppState) : AppState :=
  if jsTrim s.expression = "" then s
  else
    let s1 := { s with isAiLoading := true, aiExplain := none }
    match outcome with
    | .ok aiRes =>
      let newRecord : CalculationRecord :=
        { id := freshId
        , expression := s.expression
        , result := aiRes.answer
        , timestamp := now
        , isAi := some true
        , explanation := some aiRes.explanation }
      { s1 with aiExplain := some aiRes
              , result := aiRes.answer
              , history := (newRecord :: s.history).take 50
              , isAiLoading := false }
    | .error _ =>
      { s1 with result := "AI Error", isAiLoading := false }

/-- The whole AI path as the caller experiences it: `handleAiSolve`
awaiting the real `solveMathProblem`, which never raises, so the awaited
outcome is always `Except.ok` of its returned record. -/
def calculateWithAI (parse : String → Option ParsedJson)
    (net : Except Unit (Option String)) (freshId : String) (now : Nat)
    (s : AppState) : AppState :=
  handleAiSolve (.ok (solveMathProblem parse net)) freshId now s

/-- The mode-tab `onClick` handler: `setMode(m); handleClear()`. -/
def setModeOp (m : CalcMode) (s : AppState) : AppState :=
  handleClear { s with mode := m }

/-- The history-item `onClick` handler: looks up the clicked record (the
rendered list item closes over it; records are keyed by `id`) and copies
its `expression` and `result` into the buffer and the result display. -/
def selectHistoryEntry (entryId : String) (s : AppState) : AppState :=
  match s.history.find? (fun r => r.id == entryId) with
  | some r => { s with expression := r.expression, result := r.result }
  | none => s

/-- The `Clear All` button: `setHistory([])`. -/
def clearHistory (s : AppState) : AppState :=
  { s with history := [] }

/-- `onKeyPress` from the `App` component. In `ai` mode keystrokes are not
routed. Otherwise the four independent `if`s run in order: digit keys
(JS lexicographic `e.key >= '0' && e.key <= '9'`) and the operator set
append, `Enter` calculates, `Backspace` deletes, `Escape` clears. -/
def onKeyPress (evalFn : String → Option String) (freshId : String)
    (now : Nat) (key : String) (s : AppState) : AppState :=
  if s.mode = CalcMode.ai then s
  else
    let s1 :=
      if jsStrLe "0" key && jsStrLe key "9" then addToExpression key s else s
    let s2 :=
      if key ∈ ["+", "-", "*", "/", "(", ")", ".", "^"] then
        addToExpression key s1
      else s1
    let s3 := if key = "Enter" then calculate evalFn freshId now s2 else s2
    let s4 := if key = "Backspace" then handleBackspace s3 else s3
    if key = "Escape" then handleClear s4 else s4

/-- Running a sequence of calculations: for each `(expr, freshId, now)`
input the user replaces the buffer with `expr` and presses `=`. -/
def runCalcs (evalFn : String → Option String)
    (inputs : List (String × String × Nat)) (s : AppState) : AppState :=
  inputs.foldl
    (fun st inp =>
      calculate evalFn inp.2.1 inp.2.2 { st with expression := inp.1 })
    s

/-- The record that a successful `calculate` on input `(expr, freshId, now)`
prepends, given the evaluator's rendering of `expr`. -/
def mkCalcRecord (evalFn : String → Option String)
    (inp : String × String × Nat) : CalculationRecord :=
  { id := inp.2.1
  , expression := inp.1
  , result := (evalFn inp.1).getD ""
  , timestamp := inp.2.2 }

/-! ## Helper lemmas -/

theorem take_append_take {α : Type} (A B : List α) (n : Nat) :
    (A ++ B.take n).take n = (A ++ B).take n := by
  rw [List.take_append_eq_append_take, List.take_append_eq_append_take,
    List.take_take, Nat.min_eq_left (Nat.sub_le n A.length)]

theorem strJoin_foldl (ts : List String) :
    ∀ a : String, ts.foldl (· ++ ·) a = a ++ ts.foldl (· ++ ·) "" := by
  induction ts with
  | nil => intro a; simp [String.append_empty]
  | cons t ts ih =>
    intro a
    simp only [List.foldl_cons]
    rw [ih (a ++ t), ih ("" ++ t), String.empty_append, String.append_assoc]

theorem strJoin_cons (t : String) (ts : List String) :
    String.join (t :: ts) = t ++ String.join ts := by
  simp only [String.join, List.foldl_cons]
  rw [strJoin_foldl ts ("" ++ t), String.empty_append]

theorem appendRun_expression (toks : List String) :
    ∀ s : AppState,
      (toks.foldl (fun st t => addToExpression t st) s).expression
        = s.expression ++ String.join toks := by
  induction toks with
  | nil => intro s; simp [String.join, String.append_empty]
  | cons t ts ih =>
    intro s
    simp only [List.foldl_cons]
    rw [ih (addToExpression t s), strJoin_cons]
    simp [addToExpression, String.append_assoc]

theorem runCalcs_history (evalFn : String → Option String)
    (inputs : List (String × String × Nat)) :
    ∀ s : AppState, s.history.length ≤ 50 →
      (∀ inp ∈ inputs, inp.1 ≠ "" ∧ (evalFn inp.1).isSome) →
      (runCalcs evalFn inputs s).history
        = ((inputs.map (mkCalcRecord evalFn)).reverse ++ s.history).take 50 := by
  induction inputs with
  | nil =>
    intro s hlen _
    simp [runCalcs, List.take_of_length_le hlen]
  | cons inp rest ih =>
    intro s hlen hok
    have hmem := hok inp (List.mem_cons_self inp rest)
    obtain ⟨v, hv⟩ := Option.isSome_iff_exists.mp hmem.2
    have hrest : ∀ i ∈ rest, i.1 ≠ "" ∧ (evalFn i.1).isSome :=
      fun i hi => hok i (List.mem_cons_of_mem inp hi)
    have hstep :
        calculate evalFn inp.2.1 inp.2.2 { s with expression := inp.1 }
          = { s with expression := inp.1
                   , result := v
                   , history := (mkCalcRecord evalFn inp :: s.history).take 50 } := by
      simp [calculate, hmem.1, hv, mkCalcRecord]
    have hlen' :
        ((mkCalcRecord evalFn inp :: s.history).take 50).length ≤ 50 := by
      simp [List.length_take]
    have := ih { s with expression := inp.1
                      , result := v
                      , history := (mkCalcRecord evalFn inp :: s.history).take 50 }
      hlen' hrest
    calc (runCalcs evalFn (inp :: rest) s).history
        = (runCalcs evalFn rest
            { s with expression := inp.1
                   , result := v
                   , history := (mkCalcRecord evalFn inp :: s.history).take 50 }).history := by
          simp only [runCalcs, List.foldl_cons, hstep]
      _ = ((rest.map (mkCalcRecord evalFn)).reverse
            ++ (mkCalcRecord evalFn inp :: s.history).take 50).take 50 := this
      _ = (((inp :: rest).map (mkCalcRecord evalFn)).reverse ++ s.history).take 50 := by
          rw [take_append_take]
          simp [List.append_assoc]

/-! ## Claim theorems -/

/-- C3: on every non-empty buffer on which the evaluator fails (throws),
`calculate` sets the result to the literal `"Error"`, leaves the history
unchanged, and leaves the buffer unchanged. -/
theorem calculate_error_path (evalFn : String → Option String)
    (freshId : String) (now : Nat) (s : AppState)
    (hne : s.expression ≠ "") (hfail : evalFn s.expression = none) :
    (calculate evalFn freshId now s).result = "Error"
      ∧ (calculate evalFn freshId now s).history = s.history
      ∧ (calculate evalFn freshId now s).expression = s.expression := by
  simp [calculate, hne, hfail]

/-- The state before the C3 witness call: buffer `"2+("`. -/
def unbalancedState : AppState :=
  { mode := .standard, expression := "2+(", result := "", history := []
  , isAiLoading := false, aiExplain := none }

theorem calculate_error_path_witness :
    unbalancedState.expression ≠ ""
      ∧ ((fun _ => none) : String → Option String) unbalancedState.expression = none
      ∧ ((calculate (fun _ => none) "id-3" 0 unbalancedState).result = "Error"
        ∧ (calculate (fun _ => none) "id-3" 0 unbalancedState).history
            = unbalancedState.history
        ∧ (calculate (fun _ => none) "id-3" 0 unbalancedState).expression
            = unbalancedState.expression) :=
  ⟨by decide, rfl,
    calculate_error_path (fun _ => none) "id-3" 0 unbalancedState (by decide) rfl⟩

/-- C4: on every non-empty buffer on which the evaluator succeeds,
`calculate` sets the result to the rendered value, prepends a record with
that buffer and rendering and `isAi` unset, and keeps the buffer; a second
call with the unchanged buffer prepends a second, independent record; and
`calculate` on an empty buffer is a no-op for every evaluator (so the
evaluator is never consulted). -/
theorem calculate_success_path (evalFn : String → Option String)
    (id1 id2 : String) (t1 t2 : Nat) (v : String) (s t : AppState)
    (hne : s.expression ≠ "") (hv : evalFn s.expression = some v)
    (hempty : t.expression = "") :
    ((calculate evalFn id1 t1 s).result = v
      ∧ (calculate evalFn id1 t1 s).history
          = ({ id := id1, expression := s.expression, result := v
             , timestamp := t1, isAi := none, explanation := none }
              :: s.history).take 50
      ∧ (calculate evalFn id1 t1 s).expression = s.expression
      ∧ (calculate evalFn id2 t2 (calculate evalFn id1 t1 s)).history
          = ({ id := id2, expression := s.expression, result := v
             , timestamp := t2, isAi := none, explanation := none }
              :: (calculate evalFn id1 t1 s).history).take 50)
      ∧ (∀ g : String → Option String, ∀ fid : String, ∀ ts : Nat,
          calculate g fid ts t = t) := by
  constructor
  · have h1 : calculate evalFn id1 t1 s
        = { s with result := v
                 , history := ({ id := id1, expression := s.expression
                               , result := v, timestamp := t1 }
                     :: s.history).take 50 } := by
      simp [calculate, hne, hv]
    refine ⟨?_, ?_, ?_, ?_⟩
    · simp [h1]
    · simp [h1]
    · simp [h1]
    · rw [h1]
      simp [calculate, hne, hv]
  · intro g fid ts
    simp [calculate, hempty]

/-- The state before the C4 witness call: buffer `"2+2"`. -/
def twoPlusTwoState : AppState :=
  { mode := .standard, expression := "2+2", result := "", history := []
  , isAiLoading := false, aiExplain := none }

/-- An evaluator for the C4 witness rendering `"2+2"` as `"4"`. -/
def evalTwoPlusTwo : String → Option String :=
  fun e => if e = "2+2" then some "4" else none

/-- The empty-buffer state for the C4 witness. -/
def emptyBufferState : AppState :=
  { mode := .standard, expression := "", result := "", history := []
  , isAiLoading := false, aiExplain := none }

theorem calculate_success_path_witness :
    twoPlusTwoState.expression ≠ ""
      ∧ evalTwoPlusTwo twoPlusTwoState.expression = some "4"
      ∧ emptyBufferState.expression = ""
      ∧ (((calculate evalTwoPlusTwo "id-4a" 1 twoPlusTwoState).result = "4"
        ∧ (calculate evalTwoPlusTwo "id-4a" 1 twoPlusTwoState).history
            = ({ id := "id-4a", expression := twoPlusTwoState.expression
               , result := "4", timestamp := 1, isAi := none
               , explanation := none } :: twoPlusTwoState.history).take 50
        ∧ (calculate evalTwoPlusTwo "id-4a" 1 twoPlusTwoState).expression
            = twoPlusTwoState.expression
        ∧ (calculate evalTwoPlusTwo "id-4b" 2
              (calculate evalTwoPlusTwo "id-4a" 1 twoPlusTwoState)).history
            = ({ id := "id-4b", expression := twoPlusTwoState.expression
               , result := "4", timestamp := 2, isAi := none
               , explanation := none }
                :: (calculate evalTwoPlusTwo "id-4a" 1 twoPlusTwoState).history).take 50)
      ∧ (∀ g : String → Option String, ∀ fid : String, ∀ ts : Nat,
          calculate g fid ts emptyBufferState = emptyBufferState)) :=
  ⟨by decide, by decide, by decide,
    calculate_success_path evalTwoPlusTwo "id-4a" "id-4b" 1 2 "4"
      twoPlusTwoState emptyBufferState (by decide) (by decide) (by decide)⟩

/-- C6: for every mode value, the mode-tab click (`setMode(m)` followed by
`handleClear()`) switches to that mode and unconditionally clears the
buffer, the result and the pending AI response — including when the new
mode equals the current one — while history and the loading flag are
untouched. -/
theorem setMode_clears (m : CalcMode) (s : AppState) :
    (setModeOp m s).mode = m
      ∧ (setModeOp m s).expression = ""
      ∧ (setModeOp m s).result = ""
      ∧ (setModeOp m s).aiExplain = none
      ∧ (setModeOp m s).history = s.history
      ∧ (setModeOp m s).isAiLoading = s.isAiLoading := by
  simp [setModeOp, handleClear]

/-- C7: selecting the history entry whose identifier is `entryId` copies
its stored expression and result into the buffer and the result display,
leaves the history (hence its length) unchanged, and touches no other
state field; the transition takes no evaluator or AI collaborator at all. -/
theorem selectHistoryEntry_replays (entryId : String) (s : AppState)
    (r : CalculationRecord)
    (hfind : s.history.find? (fun rec => rec.id == entryId) = some r) :
    (selectHistoryEntry entryId s).expression = r.expression
      ∧ (selectHistoryEntry entryId s).result = r.result
      ∧ (selectHistoryEntry entryId s).history = s.history
      ∧ (selectHistoryEntry entryId s).history.length = s.history.length
      ∧ (selectHistoryEntry entryId s).mode = s.mode
      ∧ (selectHistoryEntry entryId s).isAiLoading = s.isAiLoading
      ∧ (selectHistoryEntry entryId s).aiExplain = s.aiExplain := by
  simp [selectHistoryEntry, hfind]

/-- A stored record for the C7 witness. -/
def storedRecord : CalculationRecord :=
  { id := "id-7", expression := "3*3", result := "9", timestamp := 5 }

/-- A state holding one history entry for the C7 witness. -/
def oneEntryState : AppState :=
  { mode := .standard, expression := "", result := "", history := [storedRecord]
  , isAiLoading := false, aiExplain := none }

theorem selectHistoryEntry_replays_witness :
    oneEntryState.history.find? (fun rec => rec.id == "id-7") = some storedRecord
      ∧ ((selectHistoryEntry "id-7" oneEntryState).expression
            = storedRecord.expression
        ∧ (selectHistoryEntry "id-7" oneEntryState).result = storedRecord.result
        ∧ (selectHistoryEntry "id-7" oneEntryState).history = oneEntryState.history
        ∧ (selectHistoryEntry "id-7" oneEntryState).history.length
            = oneEntryState.history.length
        ∧ (selectHistoryEntry "id-7" oneEntryState).mode = oneEntryState.mode
        ∧ (selectHistoryEntry "id-7" oneEntryState).isAiLoading
            = oneEntryState.isAiLoading
        ∧ (selectHistoryEntry "id-7" oneEntryState).aiExplain
            = oneEntryState.aiExplain) :=
  ⟨by decide, selectHistoryEntry_replays "id-7" oneEntryState storedRecord (by decide)⟩

/-- C8: `addToExpression` appends its token unconditionally, and any
sequence of appends with no intervening clear leaves the buffer equal to
the initial buffer followed by the concatenation of the tokens in call
order. -/
theorem appendToken_concatenation (s : AppState) (toks : List String) :
    (∀ t : String, (addToExpression t s).expression = s.expression ++ t)
      ∧ (toks.foldl (fun st t => addToExpression t st) s).expression
          = s.expression ++ String.join toks := by
  constructor
  · intro t
    simp [addToExpression]
  · exact appendRun_expression toks s

/-- C9: `handleBackspace` is total: the empty buffer is left exactly as it
is (the whole state is unchanged), and a non-empty buffer loses exactly its
final character (the new buffer is one shorter and pushing the removed
character back restores the old buffer). -/
theorem deleteLast_total (s : AppState) :
    (s.expression = "" → handleBackspace s = s)
      ∧ (s.expression ≠ "" →
          (handleBackspace s).expression.length = s.expression.length - 1
            ∧ ∃ c : Char, (handleBackspace s).expression.push c = s.expression) := by
  constructor
  · intro h
    cases s with
    | mk mode expr res hist load aiE =>
      simp only [AppState.mk.injEq] at h ⊢
      subst h
      simp [handleBackspace, jsSliceDropLast]
  · intro h
    have hd : s.expression.data ≠ [] := by
      intro hnil
      apply h
      cases hexp : s.expression with
      | mk l =>
        rw [hexp] at hnil
        simp at hnil
        rw [hnil]
    constructor
    · show s.expression.data.dropLast.length = s.expression.length - 1
      rw [List.length_dropLast]
      rfl
    · refine ⟨s.expression.data.getLast hd, ?_⟩
      show String.mk (s.expression.data.dropLast ++ [s.expression.data.getLast hd])
          = s.expression
      rw [List.dropLast_append_getLast hd]

/-- The state before the C9 witness call: buffer `"12"`. -/
def twoCharState : AppState :=
  { mode := .standard, expression := "12", result := "", history := []
  , isAiLoading := false, aiExplain := none }

theorem deleteLast_total_witness :
    twoCharState.expression ≠ ""
      ∧ ((handleBackspace twoCharState).expression.length
            = twoCharState.expression.length - 1
        ∧ ∃ c : Char, (handleBackspace twoCharState).expression.push c
            = twoCharState.expression) :=
  ⟨by decide, (deleteLast_total twoCharState).2 (by decide)⟩

/-- C10: the clear operation resets the buffer and the result to empty and
discards the pending AI response, while history, the loading flag and the
mode are unchanged; in a non-`ai` mode the `Escape` key performs exactly
this clear (in `ai` mode keystrokes are not routed at all). -/
theorem clear_frame_effect (s : AppState) (evalFn : String → Option String)
    (freshId : String) (now : Nat) :
    ((handleClear s).expression = ""
      ∧ (handleClear s).result = ""
      ∧ (handleClear s).aiExplain = none
      ∧ (handleClear s).history = s.history
      ∧ (handleClear s).isAiLoading = s.isAiLoading
      ∧ (handleClear s).mode = s.mode)
      ∧ (s.mode ≠ CalcMode.ai →
          onKeyPress evalFn freshId now "Escape" s = handleClear s) := by
  constructor
  · simp [handleClear]
  · intro hmode
    have h1 : (jsStrLe "0" "Escape" && jsStrLe "Escape" "9") = false := by decide
    have h2 : ("Escape" : String) ∉ ["+", "-", "*", "/", "(", ")", ".", "^"] := by
      decide
    have h3 : ("Escape" : String) ≠ "Enter" := by decide
    have h4 : ("Escape" : String) ≠ "Backspace" := by decide
    simp [onKeyPress, hmode, h1, h2, h3, h4]

/-- The state for the C10 witness: scientific mode with content in every
clearable field. -/
def clearWitnessState : AppState :=
  { mode := .scientific, expression := "sin(", result := "7"
  , history := [{ id := "id-10", expression := "7", result := "7"
                , timestamp := 1 }]
  , isAiLoading := false
  , aiExplain := some { answer := "7", explanation := "ex", steps := ["a"] } }

theorem clear_frame_effect_witness :
    clearWitnessState.mode ≠ CalcMode.ai
      ∧ (((handleClear clearWitnessState).expression = ""
        ∧ (handleClear clearWitnessState).result = ""
        ∧ (handleClear clearWitnessState).aiExplain = none
        ∧ (handleClear clearWitnessState).history = clearWitnessState.history
        ∧ (handleClear clearWitnessState).isAiLoading
            = clearWitnessState.isAiLoading
        ∧ (handleClear clearWitnessState).mode = clearWitnessState.mode)
      ∧ (clearWitnessState.mode ≠ CalcMode.ai →
          onKeyPress (fun _ => none) "id-10" 0 "Escape" clearWitnessState
            = handleClear clearWitnessState)) :=
  ⟨by decide, clear_frame_effect clearWitnessState (fun _ => none) "id-10" 0⟩

/-- C2: the history is bounded by 50 entries (both calculation paths
preserve the bound), every successful `calculate` prepends its record and
truncates to the 50 most recent, and 60 sequential successful calculations
starting from an empty ledger leave exactly the records of the 50 most
recent inputs, newest first. -/
theorem history_capacity (evalFn : String → Option String) (freshId : String)
    (now : Nat) (v : String) (s : AppState)
    (inputs : List (String × String × Nat)) (outcome : Except Unit AiResponse) :
    (s.history.length ≤ 50 →
        (calculate evalFn freshId now s).history.length ≤ 50
      ∧ (handleAiSolve outcome freshId now s).history.length ≤ 50)
    ∧ (s.expression ≠ "" → evalFn s.expression = some v →
        (calculate evalFn freshId now s).history
          = ({ id := freshId, expression := s.expression, result := v
             , timestamp := now, isAi := none, explanation := none }
              :: s.history).take 50)
    ∧ (s.history = [] → inputs.length = 60 →
        (∀ inp ∈ inputs, inp.1 ≠ "" ∧ (evalFn inp.1).isSome) →
        (runCalcs evalFn inputs s).history
            = ((inputs.drop 10).map (mkCalcRecord evalFn)).reverse
          ∧ (runCalcs evalFn inputs s).history.length = 50) := by
  refine ⟨fun hlen => ⟨?_, ?_⟩, fun hne hv => ?_, fun h0 h60 hok => ?_⟩
  · by_cases he : s.expression = ""
    · simpa [calculate, he] using hlen
    · cases hv : evalFn s.expression with
      | none => simpa [calculate, he, hv] using hlen
      | some v =>
        simp [calculate, he, hv, List.length_take]
  · by_cases ht : jsTrim s.expression = ""
    · simpa [handleAiSolve, ht] using hlen
    · cases outcome with
      | error e => simpa [handleAiSolve, ht] using hlen
      | ok aiRes => simp [handleAiSolve, ht, List.length_take]
  · simp [calculate, hne, hv]
  · have hmain := runCalcs_history evalFn inputs s (by simp [h0]) hok
    rw [h0, List.append_nil] at hmain
    have hlm : (inputs.map (mkCalcRecord evalFn)).length = 60 := by
      simp [List.length_map, h60]
    have htake :
        ((inputs.map (mkCalcRecord evalFn)).reverse).take 50
          = ((inputs.drop 10).map (mkCalcRecord evalFn)).reverse := by
      rw [List.take_reverse, hlm]
      norm_num
    constructor
    · rw [hmain, htake]
    · rw [hmain, htake]
      simp [List.length_reverse, List.length_map, List.length_drop, h60]

/-- An evaluator for the C2 witness that renders every buffer as `"4"`. -/
def evalAlwaysFour : String → Option String := fun _ => some "4"

/-- 60 sequential calculation inputs for the C2 witness. -/
def seqInputs : List (String × String × Nat) :=
  List.replicate 60 ("2+2", "u", 0)

/-- The starting state for the C2 witness: empty ledger. -/
def calcSeqState : AppState :=
  { mode := .standard, expression := "2+2", result := "", history := []
  , isAiLoading := false, aiExplain := none }

theorem history_capacity_witness :
    calcSeqState.history = []
      ∧ seqInputs.length = 60
      ∧ (∀ inp ∈ seqInputs, inp.1 ≠ "" ∧ (evalAlwaysFour inp.1).isSome)
      ∧ ((runCalcs evalAlwaysFour seqInputs calcSeqState).history
            = ((seqInputs.drop 10).map (mkCalcRecord evalAlwaysFour)).reverse
        ∧ (runCalcs evalAlwaysFour seqInputs calcSeqState).history.length = 50) :=
  ⟨rfl, by decide, by decide,
    (history_capacity evalAlwaysFour "u" 0 "4" calcSeqState seqInputs
        (.error ())).2.2 rfl (by decide) (by decide)⟩

/-- The starting state for the C1 counterexample and witness: `ai` mode
with a non-blank buffer and an empty history. -/
def aiQueryState : AppState :=
  { mode := .ai, expression := "what is 2+2", result := "", history := []
  , isAiLoading := false, aiExplain := none }

/-- C1 counterexample: with a non-blank buffer, an AI Problem Solver call
that fails with a network error (`solveMathProblem` then returns its
fallback rather than raising) makes `handleAiSolve` take its success path
and prepend a history record — history is NOT unchanged, contradicting the
claim. -/
theorem calculateWithAI_failure_records_history :
    (calculateWithAI (fun _ => none) (.error ()) "uuid-1" 7 aiQueryState).history
      ≠ aiQueryState.history := by decide

/-- C1 amended: if the awaited AI call itself raises (a collaborator stub
that raises internally), the result is the literal `"AI Error"`, no history
record is created and the loading flag is false; if instead the AI Problem
Solver call fails internally (network/service error), it returns its
fallback, so the result is the literal `"Error"`, an AI-flagged history
record carrying the fallback explanation IS prepended, and the loading
flag is false; in both resolutions the state is non-loading. -/
theorem handleAiSolve_failure_paths (parse : String → Option ParsedJson)
    (freshId : String) (now : Nat) (s : AppState)
    (hne : jsTrim s.expression ≠ "") :
    ((handleAiSolve (.error ()) freshId now s).result = "AI Error"
      ∧ (handleAiSolve (.error ()) freshId now s).history = s.history
      ∧ (handleAiSolve (.error ()) freshId now s).isAiLoading = false)
    ∧ ((calculateWithAI parse (.error ()) freshId now s).result = "Error"
      ∧ (calculateWithAI parse (.error ()) freshId now s).history
          = ({ id := freshId, expression := s.expression, result := "Error"
             , timestamp := now, isAi := some true
             , explanation := some "Failed to connect to AI assistant." }
              :: s.history).take 50
      ∧ (calculateWithAI parse (.error ()) freshId now s).isAiLoading = false) := by
  constructor
  · simp [handleAiSolve, hne]
  · simp [calculateWithAI, handleAiSolve, hne, solveMathProblem,
      fallbackResponse]

theorem handleAiSolve_failure_paths_witness :
    jsTrim aiQueryState.expression ≠ ""
      ∧ (((handleAiSolve (.error ()) "uuid-1" 7 aiQueryState).result = "AI Error"
        ∧ (handleAiSolve (.error ()) "uuid-1" 7 aiQueryState).history
            = aiQueryState.history
        ∧ (handleAiSolve (.error ()) "uuid-1" 7 aiQueryState).isAiLoading = false)
      ∧ ((calculateWithAI (fun _ => none) (.error ()) "uuid-1" 7 aiQueryState).result
            = "Error"
        ∧ (calculateWithAI (fun _ => none) (.error ()) "uuid-1" 7 aiQueryState).history
            = ({ id := "uuid-1", expression := aiQueryState.expression
               , result := "Error", timestamp := 7, isAi := some true
               , explanation := some "Failed to connect to AI assistant." }
                :: aiQueryState.history).take 50
        ∧ (calculateWithAI (fun _ => none) (.error ()) "uuid-1" 7 aiQueryState).isAiLoading
            = false)) :=
  ⟨by decide,
    handleAiSolve_failure_paths (fun _ => none) "uuid-1" 7 aiQueryState (by decide)⟩

/-- A `JSON.parse` model for the C5 counterexample: `"{}"` parses to the
empty object (all schema fields missing); everything else is malformed. -/
def parseEmptyObj : String → Option ParsedJson :=
  fun str =>
    if str = "\x7b\x7d" then some { answer := none, explanation := none, steps := none }
    else none

/-- C5 counterexample: an upstream response with a missing/empty body is an
internal failure with missing fields, yet `solveMathProblem` does not
return the claimed fallback: the answer is `"Error: No answer provided"`
(not `"Error"`) and the steps sequence is empty (not one element). -/
theorem solveMathProblem_missing_fields_not_fallback :
    (solveMathProblem parseEmptyObj (.ok none)).answer ≠ "Error"
      ∧ (solveMathProblem parseEmptyObj (.ok none)).steps.length ≠ 1 := by
  decide

/-- C5 amended: `solveMathProblem` never raises; on a transport/service
error, and on a payload that `JSON.parse` cannot parse, it returns exactly
the fallback record (literal answer `"Error"`, literal explanation
`"Failed to connect to AI assistant."`, a one-element steps sequence); but
on a parseable payload with all schema fields missing it instead returns
the per-field defaults: answer `"Error: No answer provided"`, explanation
`"No explanation available."`, and an empty steps sequence. -/
theorem solveMathProblem_failure_contract (parse : String → Option ParsedJson)
    (text : Option String) :
    solveMathProblem parse (.error ()) = fallbackResponse
      ∧ fallbackResponse.answer = "Error"
      ∧ fallbackResponse.explanation = "Failed to connect to AI assistant."
      ∧ fallbackResponse.steps.length = 1
      ∧ (parse (jsOrStr text "\x7b\x7d") = none →
          solveMathProblem parse (.ok text) = fallbackResponse)
      ∧ (parse (jsOrStr text "\x7b\x7d")
            = some { answer := none, explanation := none, steps := none } →
          solveMathProblem parse (.ok text)
            = { answer := "Error: No answer provided"
              , explanation := "No explanation available."
              , steps := [] }) := by
  refine ⟨rfl, rfl, rfl, rfl, fun hmal => ?_, fun hmiss => ?_⟩
  · simp only [solveMathProblem]
    rw [hmal]
  · simp only [solveMathProblem]
    rw [hmiss]
    simp [jsOrStr]

theorem solveMathProblem_failure_contract_witness :
    parseEmptyObj (jsOrStr none "\x7b\x7d")
        = some { answer := none, explanation := none, steps := none }
      ∧ (solveMathProblem parseEmptyObj (.error ()) = fallbackResponse
        ∧ fallbackResponse.answer = "Error"
        ∧ fallbackResponse.explanation = "Failed to connect to AI assistant."
        ∧ fallbackResponse.steps.length = 1
        ∧ (parseEmptyObj (jsOrStr none "\x7b\x7d") = none →
            solveMathProblem parseEmptyObj (.ok none) = fallbackResponse)
        ∧ (parseEmptyObj (jsOrStr none "\x7b\x7d")
              = some { answer := none, explanation := none, steps := none } →
            solveMathProblem parseEmptyObj (.ok none)
              = { answer := "Error: No answer provided"
                , explanation := "No explanation available."
                , steps := [] })) :=
  ⟨by decide, solveMathProblem_failure_contract parseEmptyObj none⟩
